import Mathlib

/-!
Verification of the banana/studio image-generation pipeline.

Shallow embedding of the response-extraction, format-detection, retry and
request-handling logic of the repository's provider adapters:

- src/studio/backend/generators/gemini_3_pro_image.py
  (ImageProcessor.extract_from_response, ImageProcessor.validate_and_encode,
   the rate-limit retry loop in generate_with_gemini_image3)
- src/banana/backend/generators/gemini_3_pro_image.py
  (_is_base64_string, _extract_image_from_response, generate_image,
   retry_on_network_error)
- src/banana/backend/generators/gemini_2_5_flash_image.py
  (_detect_image_format, the MIME-resolution tail of
   generate_with_gemini_2_5_flash_image)
- src/studio/backend/handlers/banana_img_handler.py
  (BananaImageRequest.is_valid, ResponseBuilder, handle_banana_img_request)

Bytes are modelled as `List Nat` (each element a byte value), text as
`List Char` or `String`.  External effects (the PIL image library, the
network) are modelled as explicit oracle parameters.
-/

/-! ## Base64 (Python `base64.b64encode` / `base64.b64decode`, standard alphabet) -/

/-- The standard base64 alphabet used by Python's `base64` module. -/
def b64Alphabet : List Char :=
  [ 'A', 'B', 'C', 'D', 'E', 'F', 'G', 'H', 'I', 'J', 'K', 'L', 'M',
    'N', 'O', 'P', 'Q', 'R', 'S', 'T', 'U', 'V', 'W', 'X', 'Y', 'Z',
    'a', 'b', 'c', 'd', 'e', 'f', 'g', 'h', 'i', 'j', 'k', 'l', 'm',
    'n', 'o', 'p', 'q', 'r', 's', 't', 'u', 'v', 'w', 'x', 'y', 'z',
    '0', '1', '2', '3', '4', '5', '6', '7', '8', '9', '+', '/' ]

/-- The alphabet character encoding the 6-bit value `n`. -/
def b64Char (n : Nat) : Char := b64Alphabet.getD n 'A'

def b64CharValAux : List Char → Nat → Char → Option Nat
  | [], _, _ => none
  | a :: rest, i, c => if a = c then some i else b64CharValAux rest (i + 1) c

/-- The 6-bit value of an alphabet character (`none` for a non-alphabet char). -/
def b64CharVal (c : Char) : Option Nat := b64CharValAux b64Alphabet 0 c

/-- Python `base64.b64encode`: 3-byte groups become 4 alphabet characters,
with `=` padding for a 1- or 2-byte tail. -/
def b64encode : List Nat → List Char
  | [] => []
  | [a] => [b64Char (a / 4), b64Char (a % 4 * 16), '=', '=']
  | [a, b] => [b64Char (a / 4), b64Char (a % 4 * 16 + b / 16), b64Char (b % 16 * 4), '=']
  | a :: b :: c :: rest =>
      b64Char (a / 4) :: b64Char (a % 4 * 16 + b / 16) ::
        b64Char (b % 16 * 4 + c / 64) :: b64Char (c % 64) :: b64encode rest

/-- Base64 decoding of a correctly padded character stream in 4-character
groups; `none` models `binascii.Error`. -/
def b64decodeGroups : List Char → Option (List Nat)
  | [] => some []
  | c1 :: c2 :: c3 :: c4 :: rest =>
    match b64CharVal c1, b64CharVal c2 with
    | some v1, some v2 =>
      if c3 = '=' then
        if c4 = '=' ∧ rest = [] then some [v1 * 4 + v2 / 16] else none
      else
        match b64CharVal c3 with
        | some v3 =>
          if c4 = '=' then
            if rest = [] then some [v1 * 4 + v2 / 16, v2 % 16 * 16 + v3 / 4] else none
          else
            match b64CharVal c4, b64decodeGroups rest with
            | some v4, some bs =>
                some ((v1 * 4 + v2 / 16) :: (v2 % 16 * 16 + v3 / 4) :: (v3 % 4 * 64 + v4) :: bs)
            | _, _ => none
        | none => none
    | _, _ => none
  | _ => none

/-- Characters `binascii.a2b_base64` keeps in non-validating mode. -/
def b64KeepChar (c : Char) : Bool := (b64CharVal c).isSome || c = '='

/-- Python `base64.b64decode(s)` with the default `validate=False`:
characters outside the alphabet are discarded before decoding. -/
def pyB64decode (s : List Char) : Option (List Nat) :=
  b64decodeGroups (s.filter b64KeepChar)

/-- `_decode_base64_to_bytes` from
src/studio/backend/generators/gemini_3_pro_image.py: first try
`validate=True` (strict), then fall back to the default decode. -/
def decodeBase64ToBytes (s : List Char) : Option (List Nat) :=
  match b64decodeGroups s with
  | some d => some d
  | none => pyB64decode s

/-- The character codes of a text (Python `str.encode()` on ASCII text). -/
def asciiCodes (s : List Char) : List Nat := s.map Char.toNat

/-- Python `bytes.decode('ascii')`: fails when a byte is 128 or larger. -/
def decodeAscii (bs : List Nat) : Option (List Char) :=
  if bs.all (fun x => x < 128) then some (bs.map Char.ofNat) else none

/-- Python's `needle in hay` on sequences: containment of a contiguous
sublist. -/
def containsSub [BEq α] : List α → List α → Bool
  | needle, [] => needle.isEmpty
  | needle, a :: rest => needle.isPrefixOf (a :: rest) || containsSub needle rest

/-- Python `str.upper()` (over the ASCII range used here). -/
def upperChars (s : String) : List Char := s.toList.map Char.toUpper

/-- Python `str.lower()` (over the ASCII range used here). -/
def lowerChars (s : String) : List Char := s.toList.map Char.toLower

/-- Python `str.startswith(p)`. -/
def strStartsWith (s p : String) : Bool := p.toList.isPrefixOf s.toList

/-- Python `str.replace(needle, repl)` on characters, with an explicit fuel
bound (the scan advances at least one character per step, so `hay.length`
fuel is enough). -/
def pyReplaceFuel (needle repl : List Char) : Nat → List Char → List Char
  | _, [] => []
  | 0, hay => hay
  | fuel + 1, a :: rest =>
    if needle ≠ [] ∧ needle.isPrefixOf (a :: rest) then
      repl ++ pyReplaceFuel needle repl fuel ((a :: rest).drop needle.length)
    else a :: pyReplaceFuel needle repl fuel rest

def pyReplace (s needle repl : String) : String :=
  String.mk (pyReplaceFuel needle.toList repl.toList s.toList.length s.toList)

def isSpaceChar (c : Char) : Bool :=
  c = ' ' ∨ c = '\t' ∨ c = '\n' ∨ c = '\r' ∨ c = '\x0b' ∨ c = '\x0c'

/-- Python `str.strip()`. -/
def pyStrip (s : String) : String :=
  String.mk (((s.toList.dropWhile isSpaceChar).reverse.dropWhile isSpaceChar).reverse)

/-! ## Studio response extraction
(`ImageProcessor.extract_from_response`, src/studio/backend/generators/gemini_3_pro_image.py) -/

def base64TextCharsStr : String :=
  "ABCDEFGHIJKLMNOPQRSTUVWXYZabcdefghijklmnopqrstuvwxyz0123456789+/=\n\r"

/-- The character set accepted by `_looks_like_base64_text`. -/
def base64TextChars : List Char := base64TextCharsStr.toList

/-- `_looks_like_base64_text`: non-empty, length a multiple of 4, all
characters from the base64 alphabet (plus padding and newlines). -/
def looksLikeBase64Text (s : List Char) : Bool :=
  if s.isEmpty || s.length % 4 != 0 then false
  else s.all (fun ch => base64TextChars.contains ch)

/-- `_is_image_magic`: JPEG, PNG, GIF87a/GIF89a or RIFF (WebP) signature. -/
def isImageMagic (raw : List Nat) : Bool :=
  [0xFF, 0xD8, 0xFF].isPrefixOf raw ||
  [0x89, 0x50, 0x4E, 0x47].isPrefixOf raw ||
  [0x47, 0x49, 0x46, 0x38, 0x37, 0x61].isPrefixOf raw ||
  [0x47, 0x49, 0x46, 0x38, 0x39, 0x61].isPrefixOf raw ||
  [0x52, 0x49, 0x46, 0x46].isPrefixOf raw

/-- An inline payload: the provider returns either raw bytes or a string. -/
inductive PayloadData
  | pbytes (bs : List Nat)
  | pstr (s : List Char)
deriving DecidableEq

/-- `part.inline_data`: a payload plus the provider's MIME claim. -/
structure SInlineData where
  data : PayloadData
  mimeType : Option String
deriving DecidableEq

/-- A response part; `none` models a part without a (truthy) `inline_data`. -/
abbrev SPart : Type := Option SInlineData

/-- A response candidate as read by the studio extractor: `none` models a
candidate whose `content`/`content.parts` attributes are missing. -/
structure SCandidate where
  contentParts : Option (List SPart)

/-- The part loop of `ImageProcessor.extract_from_response`.  A bytes
payload that ASCII-decodes to base64 text whose single decode carries an
image magic signature is decoded once, otherwise returned as-is; a string
payload is returned decoded only when its single decode carries a magic
signature, and otherwise the whole extraction returns `None`. -/
def sExtractLoop : List SPart → Option (List Nat × Option String)
  | [] => none
  | none :: rest => sExtractLoop rest
  | some idata :: _ =>
    match idata.data with
    | PayloadData.pbytes bs =>
      let viaText : Option (List Nat) :=
        match decodeAscii bs with
        | some text =>
          if looksLikeBase64Text text then
            match decodeBase64ToBytes text with
            | some decoded => if isImageMagic decoded then some decoded else none
            | none => none
          else none
        | none => none
      match viaText with
      | some decoded => some (decoded, idata.mimeType)
      | none => some (bs, idata.mimeType)
    | PayloadData.pstr s =>
      if looksLikeBase64Text s then
        match decodeBase64ToBytes s with
        | some decoded =>
            if isImageMagic decoded then some (decoded, idata.mimeType) else none
        | none => none
      else none

/-- `ImageProcessor.extract_from_response`: empty candidate list or missing
content parts yield `None`; otherwise the first candidate's parts are
scanned. -/
def extractFromResponse (candidates : List SCandidate) : Option (List Nat × Option String) :=
  match candidates with
  | [] => none
  | cand :: _ =>
    match cand.contentParts with
    | none => none
    | some parts => sExtractLoop parts

/-! ## Banana response extraction
(`_is_base64_string`, `_extract_image_from_response`,
src/banana/backend/generators/gemini_3_pro_image.py) -/

def jpegB64Head : List Char := ("/9j/").toList

def pngB64Head : List Char := ("iVBOR").toList

def gifB64Head : List Char := ("R0lGO").toList

/-- `_is_base64_string`: a string of length at least 4 starting with the
base64 text of a JPEG, PNG or GIF signature. -/
def bIsBase64String (s : List Char) : Bool :=
  if s.length < 4 then false
  else jpegB64Head.isPrefixOf s || pngB64Head.isPrefixOf s || gifB64Head.isPrefixOf s

structure BInlineData where
  data : PayloadData
  mimeType : Option String
deriving DecidableEq

/-- A banana response part: an optional inline payload (with MIME claim)
plus the optional result of the `as_image()` fallback (the PNG re-encode of
the part's image, `none` when the attribute is missing or the call fails). -/
structure BPart where
  inlineData : Option BInlineData
  asImage : Option (List Nat)
deriving DecidableEq

structure BCandidate where
  finishReason : Option String
  contentParts : Option (List BPart)
deriving DecidableEq

/-- A provider response as probed by the banana extractor: `parts` models
`response.parts` (empty list for a missing or falsy attribute) and
`candidates` models `response.candidates`. -/
structure BResponse where
  parts : List BPart
  candidates : List BCandidate
deriving DecidableEq

/-- The shared part loop of `_extract_image_from_response` (used for both
`response.parts` and `candidates[0].content.parts`): the running MIME type
is overwritten by each part's truthy MIME claim; a string payload matching
`_is_base64_string` is kept as a string, any other string is base64-decoded
to bytes (decoding failure skips the part), and a bytes payload is kept
as-is; the loop stops at the first truthy payload. -/
def bScanParts : List BPart → String → String × Option PayloadData
  | [], mime => (mime, none)
  | p :: rest, mime =>
    match p.inlineData with
    | none => bScanParts rest mime
    | some d =>
      let mime1 :=
        match d.mimeType with
        | some m => if m ≠ "" then m else mime
        | none => mime
      match d.data with
      | PayloadData.pstr s =>
        if bIsBase64String s then
          if s ≠ [] then (mime1, some (PayloadData.pstr s)) else bScanParts rest mime1
        else
          match pyB64decode s with
          | some bs =>
              if bs ≠ [] then (mime1, some (PayloadData.pbytes bs)) else bScanParts rest mime1
          | none => bScanParts rest mime1
      | PayloadData.pbytes bs =>
        if bs ≠ [] then (mime1, some (PayloadData.pbytes bs)) else bScanParts rest mime1

/-- `"SAFETY" in str(finish_reason).upper()`. -/
def containsSafety (reason : String) : Bool :=
  containsSub ("SAFETY").toList (upperChars reason)

def bWay2Scan (cand : BCandidate) (mime : String) : String × Option PayloadData :=
  match cand.contentParts with
  | none => (mime, none)
  | some ps => bScanParts ps mime

/-- The `as_image()` fallback loop (way 3). -/
def bWay3 : List BPart → Option (List Nat)
  | [] => none
  | p :: rest =>
    match p.asImage with
    | some img => some img
    | none => bWay3 rest

def bPartsToCheck (r : BResponse) : List BPart :=
  if r.parts ≠ [] then r.parts
  else
    match r.candidates with
    | [] => []
    | c :: _ => c.contentParts.getD []

/-- Outcome of `_extract_image_from_response`: the safety sentinel
`("SAFETY_BLOCKED", "error")`, a payload-plus-MIME pair, or `None`. -/
inductive BExtract
  | safetyBlocked
  | found (d : PayloadData) (mime : String)
  | nofind
deriving DecidableEq

/-- Final stage: falsy payloads became `none` upstream; a string payload is
returned directly and a bytes payload is returned after a PIL check that is
logged but never blocks. -/
def bFinish (r : BResponse) (mime : String) (d : Option PayloadData) : BExtract :=
  match d with
  | some payload => BExtract.found payload mime
  | none =>
    match bWay3 (bPartsToCheck r) with
    | some img =>
        if img ≠ [] then BExtract.found (PayloadData.pbytes img) "image/png"
        else BExtract.nofind
    | none => BExtract.nofind

/-- `_extract_image_from_response`: way 1 scans `response.parts`; only when
that produced no payload is `candidates[0]` consulted, whose
`finish_reason` is tested for "SAFETY" before its parts are scanned;
way 3 is the `as_image()` fallback. -/
def bExtract (r : BResponse) : BExtract :=
  let s1 := bScanParts r.parts "image/jpeg"
  match s1.2 with
  | some d => bFinish r s1.1 (some d)
  | none =>
    match r.candidates with
    | [] => bFinish r s1.1 none
    | cand :: _ =>
      match cand.finishReason with
      | some reason =>
        if containsSafety reason then BExtract.safetyBlocked
        else
          let s2 := bWay2Scan cand s1.1
          bFinish r s2.1 s2.2
      | none =>
        let s2 := bWay2Scan cand s1.1
        bFinish r s2.1 s2.2

/-! ## Retry behaviour
(rate-limit loop in `generate_with_gemini_image3`,
src/studio/backend/generators/gemini_3_pro_image.py, lines 450-474, and the
no-retry wrapper `_generate_content_with_timeout` of
src/banana/backend/generators/gemini_3_pro_image.py) -/

/-- A provider exception: Python type name plus `str(e)`. -/
structure PyExc where
  name : String
  msg : String
deriving DecidableEq

inductive AttemptOutcome (ρ : Type)
  | ok (r : ρ)
  | raise (e : PyExc)

/-- `is_rate_limit = "429" in str(api_error) or "too many" in error_str or
"quota" in error_str` (with `error_str = str(api_error).lower()`). -/
def isRateLimitExc (e : PyExc) : Bool :=
  containsSub ("429").toList e.msg.toList ||
  containsSub ("too many").toList (lowerChars e.msg) ||
  containsSub ("quota").toList (lowerChars e.msg)

structure RetryTrace (ρ : Type) where
  calls : Nat
  sleeps : List Nat
  result : AttemptOutcome ρ

/-- `retry_delay = 2` (seconds). -/
def retryDelay : Nat := 2

/-- The studio retry loop, entered at `attempt`: a successful call returns
at once; a rate-limited failure before the last attempt sleeps
`retry_delay * 2 ** (attempt - 1)` seconds and retries; any other failure
(timeouts included) re-raises immediately. -/
def retryGenerate {ρ : Type} (outcome : Nat → AttemptOutcome ρ) (maxRetries attempt : Nat) :
    RetryTrace ρ :=
  match outcome attempt with
  | AttemptOutcome.ok r => ⟨1, [], AttemptOutcome.ok r⟩
  | AttemptOutcome.raise e =>
    if h : isRateLimitExc e ∧ attempt < maxRetries then
      let t := retryGenerate outcome maxRetries (attempt + 1)
      ⟨t.calls + 1, retryDelay * 2 ^ (attempt - 1) :: t.sleeps, t.result⟩
    else ⟨1, [], AttemptOutcome.raise e⟩
termination_by maxRetries - attempt
decreasing_by omega

/-- The error-code classification of `_generate_content_with_timeout`
(banana), attached to the re-raised exception. -/
def classifyGenError (e : PyExc) : String :=
  if containsSub ("ProxyError").toList e.name.toList ||
     containsSub ("proxy").toList (lowerChars e.msg) then "PROXY_ERROR"
  else if containsSub ("ChunkedEncodingError").toList e.name.toList ||
     containsSub ("ended prematurely").toList (lowerChars e.msg) then "CHUNKED_ENCODING_ERROR"
  else if containsSub ("Timeout").toList e.name.toList ||
     containsSub ("timeout").toList (lowerChars e.msg) ||
     containsSub ("超时").toList e.msg.toList then "TIMEOUT_ERROR"
  else if containsSub ("SAFETY").toList (upperChars e.msg) ||
     containsSub ("安全").toList e.msg.toList then "SAFETY_BLOCKED"
  else if containsSub ("API").toList e.name.toList ||
     containsSub ("api").toList (lowerChars e.msg) then "API_ERROR"
  else "UNKNOWN_ERROR"

/-- The banana wrapper `_generate_content_with_timeout` makes exactly one
provider call; on failure it classifies the error and re-raises without
retrying. -/
def generateContentWithTimeout {ρ : Type} (call : Unit → AttemptOutcome ρ) :
    RetryTrace ρ × Option String :=
  match call () with
  | AttemptOutcome.ok r => (⟨1, [], AttemptOutcome.ok r⟩, none)
  | AttemptOutcome.raise e => (⟨1, [], AttemptOutcome.raise e⟩, some (classifyGenError e))

/-! ## Reference-image truncation
(`generate_image`, src/banana/backend/generators/gemini_3_pro_image.py,
lines 741-761; `generate_with_gemini_2_5_flash_image`,
src/banana/backend/generators/gemini_2_5_flash_image.py, lines 383-404) -/

/-- The banana 3 Pro reference loop body over an already-truncated list:
`None` entries are skipped with a warning, and a conversion failure raises
(`none` result). -/
def proRefPartsCore {α β : Type} (encodePart : α → Option β) :
    List (Option α) → Option (List β)
  | [] => some []
  | none :: rest => proRefPartsCore encodePart rest
  | some img :: rest =>
    match encodePart img with
    | some part => (proRefPartsCore encodePart rest).map (fun l => part :: l)
    | none => none

/-- `for idx, ref_img in enumerate(reference_images[:14])`: at most the
first 14 reference images are converted and sent. -/
def proRefParts {α β : Type} (encodePart : α → Option β) (refs : List (Option α)) :
    Option (List β) :=
  proRefPartsCore encodePart (refs.take 14)

/-- `for idx, ref_img in enumerate(reference_images[:3])` in the 2.5 flash
adapter: at most the first 3 are converted; a per-image failure is logged
and skipped. -/
def flashRefParts {α β : Type} (encodePart : α → Option β) (refs : List α) : List β :=
  (refs.take 3).filterMap encodePart

/-! ## Request handler
(src/studio/backend/handlers/banana_img_handler.py) -/

/-- A Python value as stored in the handler's dictionaries. -/
inductive PyVal
  | vNone
  | vBool (b : Bool)
  | vStr (s : String)
  | vBytes (bs : List Nat)
  | vInt (n : Int)
deriving DecidableEq

/-- A Python dict (insertion-ordered association list; `dictGet` is
`dict.get`). -/
abbrev PyDict : Type := List (String × PyVal)

def dictGet : PyDict → String → Option PyVal
  | [], _ => none
  | (k2, v) :: rest, k => if k2 = k then some v else dictGet rest k

def dictGetD (d : PyDict) (k : String) (dflt : PyVal) : PyVal :=
  (dictGet d k).getD dflt

/-- Python truthiness of the modelled values. -/
def pyTruthy : PyVal → Bool
  | PyVal.vNone => false
  | PyVal.vBool b => b
  | PyVal.vStr s => s ≠ ""
  | PyVal.vBytes bs => bs ≠ []
  | PyVal.vInt n => n ≠ 0

/-- What a generator function can hand back to the handler: `None` (from
the `except` path of `ImageGenerator.generate`), a string (the safety
sentinel of the banana adapter), or a result/error dict. -/
inductive GenResult
  | rNone
  | rStr (s : String)
  | rDict (d : PyDict)

def genTruthy : GenResult → Bool
  | GenResult.rNone => false
  | GenResult.rStr s => s ≠ ""
  | GenResult.rDict d => d ≠ ([] : PyDict)

/-- The request data the handler validates (`BananaImageRequest`). -/
structure ReqData where
  message : String
  mode : String
  aspectRatio : Option String
  resolution : Option String

/-- `BananaImageRequest.is_valid`: the message must be non-empty. -/
def reqIsValid (r : ReqData) : Bool × Option String :=
  if r.message = "" then (false, some "消息内容不能为空") else (true, none)

/-- `ResponseBuilder.build_error_response`. -/
def buildErrorResponse (errorCode : String) (errorMessage : PyVal) (statusCode : Nat) :
    PyDict × Nat :=
  ([("success", PyVal.vBool false), ("error_code", PyVal.vStr errorCode),
    ("error_message", errorMessage)], statusCode)

/-- `ResponseBuilder.build_success_response`. -/
def buildSuccessResponse (imageData : PyDict) : PyDict :=
  [("success", PyVal.vBool true),
   ("image_bytes", (dictGet imageData "image_bytes").getD PyVal.vNone),
   ("mime_type", dictGetD imageData "mime_type" (PyVal.vStr "image/jpeg")),
   ("format", dictGetD imageData "format" (PyVal.vStr "jpeg")),
   ("width", dictGetD imageData "width" (PyVal.vInt 0)),
   ("height", dictGetD imageData "height" (PyVal.vInt 0))]

/-- The `status_map` of `ResponseBuilder.handle_generator_error`. -/
def statusMapGet (code : String) : Nat :=
  if code = "TIMEOUT_ERROR" then 504
  else if code = "PROXY_ERROR" then 502
  else if code = "API_ERROR" then 502
  else if code = "CHUNKED_ENCODING_ERROR" then 502
  else if code = "SAFETY_BLOCKED" then 400
  else if code = "CLIENT_CREATION_FAILED" then 500
  else if code = "MODULE_NOT_AVAILABLE" then 500
  else 500

/-- `ResponseBuilder.handle_generator_error`:
`(image_data.get("error_code") or "UNKNOWN_ERROR").upper()` mapped through
`status_map` (a non-string `error_code` is treated as absent). -/
def handleGeneratorError (imageData : PyDict) : PyDict × Nat :=
  let codeStr :=
    match dictGet imageData "error_code" with
    | some (PyVal.vStr s) => if s ≠ "" then s else "UNKNOWN_ERROR"
    | _ => "UNKNOWN_ERROR"
  let code := String.mk (upperChars codeStr)
  let msg := dictGetD imageData "error_message" (PyVal.vStr "未知错误")
  buildErrorResponse code msg (statusMapGet code)

def genIsErrorDict : GenResult → Bool
  | GenResult.rDict d => pyTruthy ((dictGet d "error").getD PyVal.vNone)
  | _ => false

def genSafetyStr : GenResult → Option String
  | GenResult.rStr s => if strStartsWith s "SAFETY_BLOCKED:" then some s else none
  | _ => none

def genDict : GenResult → PyDict
  | GenResult.rDict d => d
  | _ => []

/-- Steps 4-9 of `handle_banana_img_request`, applied to the generator's
return value. -/
def handleSteps (imageData : GenResult) : PyDict × Nat :=
  if genTruthy imageData = false then
    buildErrorResponse "NO_IMAGE_DATA" (PyVal.vStr "图片生成失败（无返回数据）") 500
  else if genIsErrorDict imageData then
    handleGeneratorError (genDict imageData)
  else
    match genSafetyStr imageData with
    | some s =>
        buildErrorResponse "SAFETY_BLOCKED"
          (PyVal.vStr (pyStrip (pyReplace s "SAFETY_BLOCKED:" ""))) 400
    | none =>
      match imageData with
      | GenResult.rDict d =>
        match dictGet d "image_bytes" with
        | none => buildErrorResponse "INVALID_FORMAT" (PyVal.vStr "返回数据格式错误") 500
        | some ib =>
          if pyTruthy ib = false then
            buildErrorResponse "EMPTY_IMAGE_DATA" (PyVal.vStr "图片数据为空") 500
          else
            match ib with
            | PyVal.vBytes _ => (buildSuccessResponse d, 200)
            | _ => buildErrorResponse "SERIALIZATION_ERROR" (PyVal.vStr "图片数据类型错误") 500
      | _ => buildErrorResponse "INVALID_FORMAT" (PyVal.vStr "返回数据格式错误") 500

/-- The parsing stage (FormDataParser/JSONParser) either fails or yields
request data. -/
inductive ParseOutcome
  | failure
  | ok (r : ReqData)

structure HandlerOut where
  resp : PyDict
  status : Nat
  genCalls : Nat

/-- `handle_banana_img_request`: parse, apply `force_mode`, validate, call
the generator (counted in `genCalls`), post-process its result. -/
def handleBananaImgRequest (parsed : ParseOutcome) (forceMode : Option String)
    (gen : ReqData → GenResult) : HandlerOut :=
  match parsed with
  | ParseOutcome.failure =>
    let e := buildErrorResponse "PARSE_ERROR" (PyVal.vStr "请求解析失败") 400
    ⟨e.1, e.2, 0⟩
  | ParseOutcome.ok r0 =>
    let r :=
      match forceMode with
      | some m => { r0 with mode := m }
      | none => r0
    match reqIsValid r with
    | (false, msgOpt) =>
      let e := buildErrorResponse "INVALID_REQUEST" (PyVal.vStr (msgOpt.getD "")) 400
      ⟨e.1, e.2, 0⟩
    | (true, _) =>
      let out := handleSteps (gen r)
      ⟨out.1, out.2, 1⟩

/-! ## Format detection and MIME resolution
(`_detect_image_format` and the result tail of
`generate_with_gemini_2_5_flash_image`,
src/banana/backend/generators/gemini_2_5_flash_image.py; the PIL
re-detection tail of `generate_image`,
src/banana/backend/generators/gemini_3_pro_image.py, lines 993-1044) -/

/-- What PIL reports for an image it could open and load. -/
structure PILImg where
  format : Option String
  width : Nat
  height : Nat

/-- The external PIL library as an oracle: `none` models an exception from
`Image.open` / `img.load` (a failed full decode). -/
abbrev PILOracle : Type := List Nat → Option PILImg

/-- The magic-byte fallback of `_detect_image_format` (PNG header, then
JPEG header, then the PNG default). -/
def magicFallbackMime (bs : List Nat) : String :=
  if bs.getD 0 0 = 0x89 ∧ bs.getD 1 0 = 0x50 ∧ bs.getD 2 0 = 0x4E ∧ bs.getD 3 0 = 0x47 then
    "image/png"
  else if 3 ≤ bs.length ∧ bs.getD 0 0 = 0xFF ∧ bs.getD 1 0 = 0xD8 ∧ bs.getD 2 0 = 0xFF then
    "image/jpeg"
  else "image/png"

/-- `_detect_image_format`: empty or short data defaults to PNG; otherwise
PIL's verdict wins, with the magic-byte table as fallback when PIL fails
or reports no format. -/
def detectImageFormat (pil : PILOracle) (imageBytes : List Nat) : String :=
  if imageBytes = [] then "image/png"
  else if imageBytes.length < 4 then "image/png"
  else
    match pil imageBytes with
    | some img =>
      match img.format with
      | some f =>
        if f ≠ "" then
          let fl := String.mk (lowerChars f)
          if fl = "png" then "image/png"
          else if fl = "jpeg" ∨ fl = "jpg" then "image/jpeg"
          else "image/png"
        else magicFallbackMime imageBytes
      | none => magicFallbackMime imageBytes
    | none => magicFallbackMime imageBytes

/-- A generator outcome: the success dict
`(image_data = base64 text, image_format)` or an error code. -/
inductive FlashOut
  | success (imageData : List Char) (imageFormat : String)
  | failure (errorCode : String)
deriving DecidableEq

/-- `mime_type.replace('image/', '') if mime_type.startswith('image/')
else dflt`. -/
def stripImageMime (mime : String) (dflt : String) : String :=
  if strStartsWith mime "image/" then pyReplace mime "image/" "" else dflt

/-- The tail of `generate_with_gemini_2_5_flash_image` from the extracted
`image_bytes` on (lines 623-764): missing payload is
IMAGE_EXTRACTION_FAILED; the detected format always overwrites the
provider's claimed MIME type (a conflict is only logged); the bytes are
base64-encoded once into the success dict. -/
def flashFinalize (pil : PILOracle) (imageBytes : List Nat)
    (mimeFromResponse : Option String) : FlashOut :=
  if imageBytes = [] then FlashOut.failure "IMAGE_EXTRACTION_FAILED"
  else
    let detected := detectImageFormat pil imageBytes
    let mime :=
      match mimeFromResponse with
      | some m =>
        if m ≠ "" then
          if m ≠ detected then detected else detected
        else detected
      | none => detected
    FlashOut.success (b64encode imageBytes) (stripImageMime mime "png")

/-- The tail of the banana 3 Pro `generate_image` for a bytes payload
(lines 993-1044): PIL re-detection overrides the MIME type only when PIL
succeeds and reports a format; when PIL fails (logged, not blocking) the
MIME type from the response is kept, and a success dict is still
returned. -/
def proFinalize (pil : PILOracle) (imageBytes : List Nat) (mimeFromExtract : String) :
    FlashOut :=
  let mime :=
    match pil imageBytes with
    | some img =>
      match img.format with
      | some f =>
        if f ≠ "" then
          let fl := String.mk (lowerChars f)
          if fl = "png" then "image/png"
          else if fl = "jpeg" ∨ fl = "jpg" then "image/jpeg"
          else "image/png"
        else mimeFromExtract
      | none => mimeFromExtract
    | none => mimeFromExtract
  FlashOut.success (b64encode imageBytes) (stripImageMime mime "jpeg")

/-! ## Image validation
(`ImageProcessor.validate_and_encode` and its use in
`generate_with_gemini_image3`,
src/studio/backend/generators/gemini_3_pro_image.py) -/

/-- Python `base64.b64decode` applied to a bytes object. -/
def pyB64decodeBytes (bs : List Nat) : Option (List Nat) :=
  pyB64decode (bs.map Char.ofNat)

/-- The base64-text-bytes pre-decode of `validate_and_encode`: data whose
first four bytes spell `iVBO` or `/9j/` is decoded once (keeping the
original on failure or an empty decode). -/
def vPreDecode (bs : List Nat) : List Nat :=
  if bs.take 4 = [0x69, 0x56, 0x42, 0x4F] ∨ bs.take 4 = [0x2F, 0x39, 0x6A, 0x2F] then
    match pyB64decodeBytes bs with
    | some d => if d ≠ [] then d else bs
    | none => bs
  else bs

/-- `img.format.lower() if img.format else 'png'`. -/
def pilFormatOr (img : PILImg) : String :=
  match img.format with
  | some f => if f ≠ "" then String.mk (lowerChars f) else "png"
  | none => "png"

/-- `ImageProcessor.validate_and_encode`: data shorter than 100 bytes is
rejected; after the pre-decode, every accepting branch (JPEG magic, PNG
magic, generic) requires a successful full PIL decode of the bytes. -/
def validateAndEncode (pil : PILOracle) (imageBytes : List Nat) : Bool × Option String :=
  if imageBytes.length < 100 then (false, none)
  else
    let ib := vPreDecode imageBytes
    if ib.take 3 = [0xFF, 0xD8, 0xFF] then
      match pil ib with
      | some _ => (true, some "jpeg")
      | none => (false, none)
    else if ib.take 4 = [0x89, 0x50, 0x4E, 0x47] then
      match pil ib with
      | some _ => (true, some "png")
      | none => (false, none)
    else
      match pil ib with
      | some img => (true, some (pilFormatOr img))
      | none => (false, none)

inductive SValidateGate
  | invalidImage
  | proceed (fmt : Option String)
deriving DecidableEq

/-- The validation step of `generate_with_gemini_image3` (lines 487-493):
a failed validation returns the InvalidImage error dict. -/
def studioValidateGate (pil : PILOracle) (imageBytes : List Nat) : SValidateGate :=
  let r := validateAndEncode pil imageBytes
  if r.1 then SValidateGate.proceed r.2 else SValidateGate.invalidImage

/-- A PIL oracle for inputs PIL cannot decode at all. -/
def pilAlwaysFail : PILOracle := fun _ => none

/-! ## The disabled retry decorator
(`retry_on_network_error`, src/banana/backend/generators/gemini_3_pro_image.py,
lines 126-145) -/

/-- `retry_on_network_error(max_retries, delay)`: the produced wrapper
calls the wrapped function directly, once, with the same arguments,
ignoring both parameters. -/
def retryOnNetworkError {α β : Type} (maxRetries : Nat) (delay : Nat) (f : α → β) : α → β :=
  fun args => f args

/-- Lines 477-518 of `generate_with_gemini_2_5_flash_image` for a string
payload: whether or not the string carries the base64 PNG/JPEG marker
prefix (`iVBOR`/`iVBO`/`/9j/`), it is base64-decoded exactly once;
`none` models the Base64DecodeFailed error dict. -/
def flashExtractStr (s : List Char) : Option (List Nat) :=
  let isB64Png := ("iVBOR").toList.isPrefixOf s || ("iVBO").toList.isPrefixOf s
  let isB64Jpeg := ("/9j/").toList.isPrefixOf s
  if isB64Png || isB64Jpeg then pyB64decode s
  else pyB64decode s

/-! ## Concrete test vectors -/

/-- The 8-byte PNG file signature. -/
def pngSigBytes : List Nat := [0x89, 0x50, 0x4E, 0x47, 0x0D, 0x0A, 0x1A, 0x0A]

/-- A small JPEG-signature byte string. -/
def jpegTestBytes : List Nat := [0xFF, 0xD8, 0xFF, 0xE0, 1, 2, 3]

/-- A timeout exception as raised by the SDK. -/
def timeoutExc : PyExc := { name := "TimeoutError", msg := "Request timed out" }

/-- A 429 rate-limit exception. -/
def rateLimitExc : PyExc := { name := "ClientError", msg := "429 Too Many Requests" }

/-! ## Base64 lemmas -/

theorem b64CharVal_b64Char : ∀ n, n < 64 → b64CharVal (b64Char n) = some n := by decide

theorem b64Char_ne_pad : ∀ n, n < 64 → b64Char n ≠ '=' := by decide

theorem b64CharVal_b64Char_isSome_lt : ∀ n, n < 64 → (b64CharVal (b64Char n)).isSome = true := by
  decide

theorem b64Char_ge (n : Nat) (h : 64 ≤ n) : b64Char n = 'A' := by
  unfold b64Char
  apply List.getD_eq_default
  simpa [b64Alphabet] using h

theorem b64Char_mem_textChars (n : Nat) : base64TextChars.contains (b64Char n) = true := by
  by_cases h : n < 64
  · revert h
    revert n
    decide
  · rw [b64Char_ge n (by omega)]
    decide

theorem pad_mem_textChars : base64TextChars.contains '=' = true := by decide

theorem b64Char_toNat_lt (n : Nat) : (b64Char n).toNat < 128 := by
  by_cases h : n < 64
  · revert h
    revert n
    decide
  · rw [b64Char_ge n (by omega)]
    decide

theorem b64KeepChar_b64Char (n : Nat) : b64KeepChar (b64Char n) = true := by
  by_cases h : n < 64
  · revert h
    revert n
    decide
  · rw [b64Char_ge n (by omega)]
    decide

theorem b64KeepChar_pad : b64KeepChar '=' = true := by decide

theorem b64decodeGroups_b64encode : ∀ (bs : List Nat), (∀ x ∈ bs, x < 256) →
    b64decodeGroups (b64encode bs) = some bs
  | [], _ => rfl
  | [a], h => by
    have ha : a < 256 := h a (by simp)
    have h1 : a / 4 < 64 := by omega
    have h2 : a % 4 * 16 < 64 := by omega
    show b64decodeGroups [b64Char (a / 4), b64Char (a % 4 * 16), '=', '='] = some [a]
    simp only [b64decodeGroups, b64CharVal_b64Char _ h1, b64CharVal_b64Char _ h2]
    simp
    omega
  | [a, b], h => by
    have ha : a < 256 := h a (by simp)
    have hb : b < 256 := h b (by simp)
    have h1 : a / 4 < 64 := by omega
    have h2 : a % 4 * 16 + b / 16 < 64 := by omega
    have h3 : b % 16 * 4 < 64 := by omega
    show b64decodeGroups
        [b64Char (a / 4), b64Char (a % 4 * 16 + b / 16), b64Char (b % 16 * 4), '='] = some [a, b]
    simp only [b64decodeGroups, b64CharVal_b64Char _ h1, b64CharVal_b64Char _ h2,
      b64CharVal_b64Char _ h3]
    simp [b64Char_ne_pad _ h3]
    omega
  | a :: b :: c :: rest, h => by
    have ha : a < 256 := h a (by simp)
    have hb : b < 256 := h b (by simp)
    have hc : c < 256 := h c (by simp)
    have h1 : a / 4 < 64 := by omega
    have h2 : a % 4 * 16 + b / 16 < 64 := by omega
    have h3 : b % 16 * 4 + c / 64 < 64 := by omega
    have h4 : c % 64 < 64 := by omega
    have ih : b64decodeGroups (b64encode rest) = some rest :=
      b64decodeGroups_b64encode rest (fun x hx => h x (by simp [hx]))
    show b64decodeGroups
        (b64Char (a / 4) :: b64Char (a % 4 * 16 + b / 16) ::
          b64Char (b % 16 * 4 + c / 64) :: b64Char (c % 64) :: b64encode rest) =
      some (a :: b :: c :: rest)
    simp only [b64decodeGroups, b64CharVal_b64Char _ h1, b64CharVal_b64Char _ h2,
      b64CharVal_b64Char _ h3, b64CharVal_b64Char _ h4, ih]
    simp [b64Char_ne_pad _ h3, b64Char_ne_pad _ h4]
    omega

theorem b64encode_ne_nil : ∀ (a : Nat) (bs : List Nat), b64encode (a :: bs) ≠ []
  | a, [] => by simp [b64encode]
  | a, [b] => by simp [b64encode]
  | a, b :: c :: rest => by simp [b64encode]

theorem b64encode_length_mod4 : ∀ bs : List Nat, (b64encode bs).length % 4 = 0
  | [] => rfl
  | [a] => by simp [b64encode]
  | [a, b] => by simp [b64encode]
  | a :: b :: c :: rest => by
    have ih := b64encode_length_mod4 rest
    simp only [b64encode, List.length_cons]
    omega

theorem b64encode_mem_textChars :
    ∀ (bs : List Nat), ∀ c ∈ b64encode bs, base64TextChars.contains c = true
  | [], c, hc => by simp [b64encode] at hc
  | [a], c, hc => by
    simp only [b64encode, List.mem_cons, List.not_mem_nil, or_false] at hc
    rcases hc with rfl | rfl | rfl | rfl
    · exact b64Char_mem_textChars _
    · exact b64Char_mem_textChars _
    · exact pad_mem_textChars
    · exact pad_mem_textChars
  | [a, b], c, hc => by
    simp only [b64encode, List.mem_cons, List.not_mem_nil, or_false] at hc
    rcases hc with rfl | rfl | rfl | rfl
    · exact b64Char_mem_textChars _
    · exact b64Char_mem_textChars _
    · exact b64Char_mem_textChars _
    · exact pad_mem_textChars
  | a :: b :: d :: rest, c, hc => by
    simp only [b64encode, List.mem_cons] at hc
    rcases hc with rfl | rfl | rfl | rfl | hmem
    · exact b64Char_mem_textChars _
    · exact b64Char_mem_textChars _
    · exact b64Char_mem_textChars _
    · exact b64Char_mem_textChars _
    · exact b64encode_mem_textChars rest c hmem

theorem b64encode_mem_keep :
    ∀ (bs : List Nat), ∀ c ∈ b64encode bs, b64KeepChar c = true
  | [], c, hc => by simp [b64encode] at hc
  | [a], c, hc => by
    simp only [b64encode, List.mem_cons, List.not_mem_nil, or_false] at hc
    rcases hc with rfl | rfl | rfl | rfl
    · exact b64KeepChar_b64Char _
    · exact b64KeepChar_b64Char _
    · exact b64KeepChar_pad
    · exact b64KeepChar_pad
  | [a, b], c, hc => by
    simp only [b64encode, List.mem_cons, List.not_mem_nil, or_false] at hc
    rcases hc with rfl | rfl | rfl | rfl
    · exact b64KeepChar_b64Char _
    · exact b64KeepChar_b64Char _
    · exact b64KeepChar_b64Char _
    · exact b64KeepChar_pad
  | a :: b :: d :: rest, c, hc => by
    simp only [b64encode, List.mem_cons] at hc
    rcases hc with rfl | rfl | rfl | rfl | hmem
    · exact b64KeepChar_b64Char _
    · exact b64KeepChar_b64Char _
    · exact b64KeepChar_b64Char _
    · exact b64KeepChar_b64Char _
    · exact b64encode_mem_keep rest c hmem

theorem b64encode_toNat_lt :
    ∀ (bs : List Nat), ∀ c ∈ b64encode bs, c.toNat < 128 := by
  intro bs c hc
  have h := b64encode_mem_textChars bs c hc
  revert h
  have hlt : ∀ x ∈ base64TextChars, x.toNat < 128 := by decide
  intro h
  exact hlt c (List.mem_of_elem_eq_true h)

theorem looksLikeBase64Text_b64encode (a : Nat) (bs : List Nat) :
    looksLikeBase64Text (b64encode (a :: bs)) = true := by
  unfold looksLikeBase64Text
  have hne := b64encode_ne_nil a bs
  have hlen := b64encode_length_mod4 (a :: bs)
  rw [if_neg]
  · rw [List.all_eq_true]
    intro c hc
    exact b64encode_mem_textChars _ c hc
  · simp [List.isEmpty_iff, hne, hlen]

theorem pyB64decode_b64encode (bs : List Nat) (h : ∀ x ∈ bs, x < 256) :
    pyB64decode (b64encode bs) = some bs := by
  unfold pyB64decode
  rw [List.filter_eq_self.mpr (b64encode_mem_keep bs)]
  exact b64decodeGroups_b64encode bs h

theorem decodeBase64ToBytes_b64encode (bs : List Nat) (h : ∀ x ∈ bs, x < 256) :
    decodeBase64ToBytes (b64encode bs) = some bs := by
  unfold decodeBase64ToBytes
  rw [b64decodeGroups_b64encode bs h]

theorem decodeAscii_asciiCodes (s : List Char) (h : ∀ c ∈ s, c.toNat < 128) :
    decodeAscii (asciiCodes s) = some s := by
  unfold decodeAscii asciiCodes
  rw [if_pos]
  · rw [List.map_map]
    congr 1
    conv_rhs => rw [← List.map_id s]
    apply List.map_congr_left
    intro c _
    exact Char.ofNat_toNat c
  · rw [List.all_eq_true]
    intro x hx
    simp only [List.mem_map] at hx
    obtain ⟨c, hc, rfl⟩ := hx
    simpa using h c hc

theorem asciiCodes_encode_lt256 (bs : List Nat) :
    ∀ x ∈ asciiCodes (b64encode bs), x < 256 := by
  intro x hx
  simp only [asciiCodes, List.mem_map] at hx
  obtain ⟨c, hc, rfl⟩ := hx
  have := b64encode_toNat_lt bs c hc
  omega

/-! ## Shape of the base64 text of PNG and JPEG data -/

theorem b64encode_cons3 (a b c : Nat) (t : List Nat) :
    b64encode (a :: b :: c :: t) =
      b64Char (a / 4) :: b64Char (a % 4 * 16 + b / 16) ::
        b64Char (b % 16 * 4 + c / 64) :: b64Char (c % 64) :: b64encode t := rfl

/-- The base64 text of PNG data starts with `iVBO`. -/
theorem b64encode_png_head (t : List Nat) :
    b64encode (0x89 :: 0x50 :: 0x4E :: t) = 'i' :: 'V' :: 'B' :: 'O' :: b64encode t := by
  rw [b64encode_cons3]
  norm_num
  refine ⟨by decide, by decide, by decide, by decide⟩

/-- `isImageMagic` rejects anything starting with the letter `i` (0x69). -/
theorem isImageMagic_i_false (l : List Nat) : isImageMagic (0x69 :: l) = false := by
  simp [isImageMagic, List.isPrefixOf]

/-- `isImageMagic` rejects anything starting with the letter `a` (0x61). -/
theorem isImageMagic_a_false (l : List Nat) : isImageMagic (0x61 :: l) = false := by
  simp [isImageMagic, List.isPrefixOf]

/-! ## C3: single-encoded JPEG round-trip -/

/-- C3: for every JPEG byte string B (bytes beginning with FF D8 FF, modelled
as 0xFF :: 0xD8 :: 0xFF :: t), running the studio response extractor on a
payload equal to base64(B) (the single-encoded text form) yields bytes
identical to B: the value is recognized as base64, decoded once, and
confirmed by its magic-byte signature. -/
theorem jpeg_single_base64_roundtrip (t : List Nat) (m : Option String)
    (h : ∀ x ∈ t, x < 256) :
    extractFromResponse
      [⟨some [some ⟨PayloadData.pstr (b64encode (0xFF :: 0xD8 :: 0xFF :: t)), m⟩]⟩] =
      some (0xFF :: 0xD8 :: 0xFF :: t, m) ∧
    flashExtractStr (b64encode (0xFF :: 0xD8 :: 0xFF :: t)) =
      some (0xFF :: 0xD8 :: 0xFF :: t) := by
  have hB : ∀ x ∈ (0xFF :: 0xD8 :: 0xFF :: t), x < 256 := by
    intro x hx
    simp only [List.mem_cons] at hx
    rcases hx with rfl | rfl | rfl | hx
    · omega
    · omega
    · omega
    · exact h x hx
  have hmagic : isImageMagic (0xFF :: 0xD8 :: 0xFF :: t) = true := by
    simp [isImageMagic, List.isPrefixOf]
  constructor
  · simp only [extractFromResponse, sExtractLoop, looksLikeBase64Text_b64encode,
      decodeBase64ToBytes_b64encode _ hB, hmagic, if_true]
  · unfold flashExtractStr
    rw [pyB64decode_b64encode _ hB]
    simp

theorem jpeg_single_base64_roundtrip_witness :
    extractFromResponse
      [⟨some [some ⟨PayloadData.pstr (b64encode (0xFF :: 0xD8 :: 0xFF :: [0xE0, 1, 2, 3])),
          some "image/jpeg"⟩]⟩] =
      some (0xFF :: 0xD8 :: 0xFF :: [0xE0, 1, 2, 3], some "image/jpeg") :=
  (jpeg_single_base64_roundtrip [0xE0, 1, 2, 3] (some "image/jpeg") (by decide)).1

/-! ## C2: double-encoded PNG payloads are not recovered -/

/-- C2 counterexample: for the concrete PNG byte string `pngSigBytes`, the
studio extractor applied to the double-encoded text payload
base64(base64(B)) does not return B: it returns no payload at all, because
the single decode yields base64 text rather than magic bytes and no second
decode is attempted. -/
theorem png_double_base64_claim_false :
    extractFromResponse
      [⟨some [some ⟨PayloadData.pstr (b64encode (asciiCodes (b64encode pngSigBytes))),
          some "image/png"⟩]⟩] = none ∧
    extractFromResponse
      [⟨some [some ⟨PayloadData.pstr (b64encode (asciiCodes (b64encode pngSigBytes))),
          some "image/png"⟩]⟩] ≠ some (pngSigBytes, some "image/png") := by
  constructor
  · decide
  · decide

/-- C2 as amended: for every PNG byte string B (beginning with the PNG
signature 89 50 4E 47), the studio extractor does NOT perform the second
base64 decode on a payload equal to base64(base64(B)).  Given the
double-encoded value as a string, the single decode fails the magic-byte
check and the extractor returns no payload; given it as bytes, the payload
bytes are returned unchanged (still the single-encoded base64 text), which
differ from B. -/
theorem png_double_base64_amended (t : List Nat) (m : Option String)
    (h : ∀ x ∈ t, x < 256) :
    extractFromResponse
      [⟨some [some ⟨PayloadData.pstr
          (b64encode (asciiCodes (b64encode (0x89 :: 0x50 :: 0x4E :: 0x47 :: t)))), m⟩]⟩] =
      none ∧
    extractFromResponse
      [⟨some [some ⟨PayloadData.pbytes
          (asciiCodes (b64encode (asciiCodes (b64encode (0x89 :: 0x50 :: 0x4E :: 0x47 :: t))))),
          m⟩]⟩] =
      some (asciiCodes (b64encode (asciiCodes (b64encode (0x89 :: 0x50 :: 0x4E :: 0x47 :: t)))),
        m) ∧
    asciiCodes (b64encode (asciiCodes (b64encode (0x89 :: 0x50 :: 0x4E :: 0x47 :: t)))) ≠
      0x89 :: 0x50 :: 0x4E :: 0x47 :: t := by
  have hhead1 : b64encode (0x89 :: 0x50 :: 0x4E :: 0x47 :: t) =
      'i' :: 'V' :: 'B' :: 'O' :: b64encode (0x47 :: t) := b64encode_png_head (0x47 :: t)
  have hcodes1 : asciiCodes (b64encode (0x89 :: 0x50 :: 0x4E :: 0x47 :: t)) =
      105 :: 86 :: 66 :: 79 :: asciiCodes (b64encode (0x47 :: t)) := by
    rw [hhead1]
    simp [asciiCodes]
  have hlt1 : ∀ x ∈ asciiCodes (b64encode (0x89 :: 0x50 :: 0x4E :: 0x47 :: t)), x < 256 :=
    asciiCodes_encode_lt256 _
  have hdec : decodeBase64ToBytes
      (b64encode (asciiCodes (b64encode (0x89 :: 0x50 :: 0x4E :: 0x47 :: t)))) =
      some (asciiCodes (b64encode (0x89 :: 0x50 :: 0x4E :: 0x47 :: t))) :=
    decodeBase64ToBytes_b64encode _ hlt1
  have hnomagic : isImageMagic (asciiCodes (b64encode (0x89 :: 0x50 :: 0x4E :: 0x47 :: t))) =
      false := by
    rw [hcodes1]
    exact isImageMagic_i_false _
  have hlooks : looksLikeBase64Text
      (b64encode (asciiCodes (b64encode (0x89 :: 0x50 :: 0x4E :: 0x47 :: t)))) = true := by
    rw [hcodes1]
    exact looksLikeBase64Text_b64encode _ _
  have hhead2 : b64encode (asciiCodes (b64encode (0x89 :: 0x50 :: 0x4E :: 0x47 :: t))) =
      'a' :: 'V' :: 'Z' :: 'C' :: b64encode (79 :: asciiCodes (b64encode (0x47 :: t))) := by
    rw [hcodes1, b64encode_cons3]
    norm_num
    refine ⟨by decide, by decide, by decide, by decide⟩
  refine ⟨?_, ?_, ?_⟩
  · simp only [extractFromResponse, sExtractLoop, hlooks, hdec, hnomagic, if_true]
    simp
  · have hascii : decodeAscii
        (asciiCodes (b64encode (asciiCodes (b64encode (0x89 :: 0x50 :: 0x4E :: 0x47 :: t))))) =
        some (b64encode (asciiCodes (b64encode (0x89 :: 0x50 :: 0x4E :: 0x47 :: t)))) :=
      decodeAscii_asciiCodes _ (b64encode_toNat_lt _)
    simp only [extractFromResponse, sExtractLoop, hascii, hlooks, hdec, hnomagic, if_true]
    simp
  · rw [hhead2]
    simp [asciiCodes]

theorem png_double_base64_amended_witness :
    extractFromResponse
      [⟨some [some ⟨PayloadData.pstr
          (b64encode (asciiCodes (b64encode
            (0x89 :: 0x50 :: 0x4E :: 0x47 :: [0x0D, 0x0A, 0x1A, 0x0A])))), none⟩]⟩] = none :=
  (png_double_base64_amended [0x0D, 0x0A, 0x1A, 0x0A] none (by decide)).1

/-! ## C1: safety flag versus top-level payload in the banana extractor -/

/-- C1 counterexample: a response whose candidate carries the safety
finish-reason but whose top-level `response.parts` list carries an inline
JPEG payload: the banana extractor returns the payload, not the
SafetyBlocked outcome, because way 1 runs before the finish-reason check. -/
theorem safety_blocked_claim_false :
    bExtract
      { parts := [⟨some ⟨PayloadData.pbytes jpegTestBytes, some "image/jpeg"⟩, none⟩],
        candidates := [⟨some "FinishReason.IMAGE_SAFETY", none⟩] } =
      BExtract.found (PayloadData.pbytes jpegTestBytes) "image/jpeg" ∧
    containsSafety "FinishReason.IMAGE_SAFETY" = true ∧
    BExtract.found (PayloadData.pbytes jpegTestBytes) "image/jpeg" ≠ BExtract.safetyBlocked := by
  refine ⟨by decide, by decide, by decide⟩

/-- C1 as amended: a response flagged as safety-rejected yields the
SafetyBlocked outcome, without using any payload, provided no payload was
extracted from the top-level `response.parts` list (here: the list is
absent or empty); in particular a payload carried only in
`candidates[0].content.parts` is never consulted. -/
theorem safety_blocked_amended (cand : BCandidate) (rest : List BCandidate) (reason : String)
    (hfr : cand.finishReason = some reason)
    (hsafe : containsSafety reason = true) :
    bExtract { parts := [], candidates := cand :: rest } = BExtract.safetyBlocked := by
  unfold bExtract
  simp [bScanParts, hfr, hsafe]

theorem safety_blocked_amended_witness :
    bExtract
      { parts := [],
        candidates := [⟨some "FinishReason.IMAGE_SAFETY",
          some [⟨some ⟨PayloadData.pbytes jpegTestBytes, some "image/jpeg"⟩, none⟩]⟩] } =
      BExtract.safetyBlocked :=
  safety_blocked_amended _ [] "FinishReason.IMAGE_SAFETY" rfl (by decide)

/-! ## C4: only rate-limited failures are retried -/

/-- C4 counterexample: with maxRetries = 3 and a timeout exception raised
on every attempt, the studio retry loop makes exactly one provider call
(not 3) and re-raises: timeouts are not classified as rate limits, so they
are never retried. -/
theorem timeout_retry_claim_false :
    retryGenerate (fun _ => (AttemptOutcome.raise timeoutExc : AttemptOutcome Unit)) 3 1 =
      ⟨1, [], AttemptOutcome.raise timeoutExc⟩ ∧
    isRateLimitExc timeoutExc = false ∧
    (1 : Nat) ≠ 3 := by
  have hrl : isRateLimitExc timeoutExc = false := by decide
  refine ⟨?_, hrl, by decide⟩
  rw [retryGenerate.eq_def]
  simp [hrl]

/-- C4 as amended: the studio loop retries only rate-limit failures
(429 / "too many" / "quota").  Any other exception — timeouts included —
stops the loop at once: the provider is called exactly once, nothing
sleeps, and the exception propagates.  A rate-limit failure on every
attempt with maxRetries = 3 makes exactly 3 calls with exponentially
doubled sleeps of 2 and 4 seconds before re-raising. -/
theorem retry_only_rate_limited_amended {ρ : Type} :
    (∀ (outcome : Nat → AttemptOutcome ρ) (maxRetries attempt : Nat) (e : PyExc),
       outcome attempt = AttemptOutcome.raise e → isRateLimitExc e = false →
       retryGenerate outcome maxRetries attempt = ⟨1, [], AttemptOutcome.raise e⟩) ∧
    (∀ (outcome : Nat → AttemptOutcome ρ) (e : PyExc),
       (∀ n, outcome n = AttemptOutcome.raise e) → isRateLimitExc e = true →
       retryGenerate outcome 3 1 = ⟨3, [2, 4], AttemptOutcome.raise e⟩) := by
  constructor
  · intro outcome maxRetries attempt e hout hrl
    rw [retryGenerate.eq_def, hout]
    simp [hrl]
  · intro outcome e hout hrl
    have h3 : retryGenerate outcome 3 3 = ⟨1, [], AttemptOutcome.raise e⟩ := by
      rw [retryGenerate.eq_def, hout 3]
      simp
    have h2 : retryGenerate outcome 3 2 = ⟨2, [4], AttemptOutcome.raise e⟩ := by
      rw [retryGenerate.eq_def, hout 2]
      simp [hrl, h3, retryDelay]
    rw [retryGenerate.eq_def, hout 1]
    simp [hrl, h2, retryDelay]

theorem retry_only_rate_limited_amended_witness :
    retryGenerate (fun _ => (AttemptOutcome.raise rateLimitExc : AttemptOutcome Unit)) 3 1 =
      ⟨3, [2, 4], AttemptOutcome.raise rateLimitExc⟩ :=
  (retry_only_rate_limited_amended).2 _ rateLimitExc (fun _ => rfl) (by decide)

/-! ## C5: detected format versus provider-claimed MIME type -/

/-- Every leaf of `_detect_image_format` is PNG or JPEG. -/
theorem magicFallbackMime_cases (bytes : List Nat) :
    magicFallbackMime bytes = "image/png" ∨ magicFallbackMime bytes = "image/jpeg" := by
  unfold magicFallbackMime
  split
  · exact Or.inl rfl
  split
  · exact Or.inr rfl
  · exact Or.inl rfl

theorem detectImageFormat_cases (pil : PILOracle) (bytes : List Nat) :
    detectImageFormat pil bytes = "image/png" ∨ detectImageFormat pil bytes = "image/jpeg" := by
  by_cases h0 : bytes = []
  · left
    simp [detectImageFormat, h0]
  by_cases h1 : bytes.length < 4
  · left
    simp [detectImageFormat, h0, h1]
  unfold detectImageFormat
  rw [if_neg h0, if_neg h1]
  cases hp : pil bytes with
  | none => exact magicFallbackMime_cases bytes
  | some img =>
    dsimp only
    cases hf : img.format with
    | none => exact magicFallbackMime_cases bytes
    | some f =>
      dsimp only
      by_cases hfe : f = ""
      · rw [if_neg (by simp [hfe])]
        exact magicFallbackMime_cases bytes
      · rw [if_pos hfe]
        by_cases hpng : String.mk (lowerChars f) = "png"
        · left
          simp [hpng]
        · by_cases hjpg : String.mk (lowerChars f) = "jpeg" ∨ String.mk (lowerChars f) = "jpg"
          · right
            simp [hpng, hjpg]
          · left
            simp [hpng, hjpg]

/-- C5 counterexample: a successful banana 3 Pro result (4 PNG-signature
bytes that PIL itself cannot decode, with the provider claiming JPEG)
whose returned format is the claimed `jpeg`, while the detection procedure
(PIL sniff, then magic bytes) detects `image/png` — the detected format
does not win on this path. -/
theorem detected_format_claim_false :
    proFinalize pilAlwaysFail [0x89, 0x50, 0x4E, 0x47] "image/jpeg" =
      FlashOut.success (b64encode [0x89, 0x50, 0x4E, 0x47]) "jpeg" ∧
    detectImageFormat pilAlwaysFail [0x89, 0x50, 0x4E, 0x47] = "image/png" ∧
    ("jpeg" : String) ≠ "png" := by
  refine ⟨by decide, by decide, by decide⟩

/-- C5 as amended: in the 2.5 flash adapter the detected format (PIL
sniff, then magic bytes, defaulting to PNG) always wins and a conflict
with the provider's claimed MIME type never fails the request; in the
banana 3 Pro adapter the PIL verdict wins whenever PIL decodes the bytes
and reports a format, both results still succeed, but when PIL fails the
provider-claimed MIME type is kept. -/
theorem detected_format_amended :
    (∀ (pil : PILOracle) (bytes : List Nat) (mimeResp : Option String), bytes ≠ [] →
       flashFinalize pil bytes mimeResp =
         FlashOut.success (b64encode bytes)
           (stripImageMime (detectImageFormat pil bytes) "png") ∧
       (detectImageFormat pil bytes = "image/png" ∨
        detectImageFormat pil bytes = "image/jpeg")) ∧
    (∀ (pil : PILOracle) (bytes : List Nat) (img : PILImg) (f : String)
       (mime1 mime2 : String), pil bytes = some img → img.format = some f → f ≠ "" →
       proFinalize pil bytes mime1 = proFinalize pil bytes mime2) ∧
    (∀ (pil : PILOracle) (bytes : List Nat) (mime : String), pil bytes = none →
       proFinalize pil bytes mime =
         FlashOut.success (b64encode bytes) (stripImageMime mime "jpeg")) := by
  refine ⟨?_, ?_, ?_⟩
  · intro pil bytes mimeResp hne
    refine ⟨?_, detectImageFormat_cases pil bytes⟩
    unfold flashFinalize
    rw [if_neg hne]
    cases mimeResp with
    | none => rfl
    | some m => simp
  · intro pil bytes img f mime1 mime2 hpil hfmt hf
    unfold proFinalize
    rw [hpil]
    simp [hfmt, hf]
  · intro pil bytes mime hpil
    unfold proFinalize
    rw [hpil]

theorem detected_format_amended_witness :
    flashFinalize pilAlwaysFail pngSigBytes (some "image/jpeg") =
      FlashOut.success (b64encode pngSigBytes)
        (stripImageMime (detectImageFormat pilAlwaysFail pngSigBytes) "png") :=
  ((detected_format_amended).1 pilAlwaysFail pngSigBytes (some "image/jpeg") (by decide)).1

/-! ## C6: reference-image truncation -/

theorem proRefPartsCore_map_some {α β : Type} (encodePart : α → β) :
    ∀ l : List α,
      proRefPartsCore (fun a => some (encodePart a)) (l.map some) = some (l.map encodePart)
  | [] => rfl
  | a :: rest => by
    simp [proRefPartsCore, proRefPartsCore_map_some encodePart rest]

/-- C6: for every reference-image list, the banana 3 Pro adapter sends
exactly the first 14 images and the 2.5 flash adapter exactly the first 3;
the excess is silently dropped, never an error.  In particular a list of
20 images against the max of 14 sends exactly the first 14. -/
theorem reference_images_truncated {α β : Type} (encodePart : α → β) :
    (∀ imgs : List α,
       proRefParts (fun a => some (encodePart a)) (imgs.map some) =
         some ((imgs.take 14).map encodePart)) ∧
    (∀ imgs : List α,
       flashRefParts (fun a => some (encodePart a)) imgs = (imgs.take 3).map encodePart) ∧
    (∀ imgs : List α, imgs.length = 20 →
       (proRefParts (fun a => some (encodePart a)) (imgs.map some)).map List.length =
         some 14) := by
  have hpro : ∀ imgs : List α,
      proRefParts (fun a => some (encodePart a)) (imgs.map some) =
        some ((imgs.take 14).map encodePart) := by
    intro imgs
    unfold proRefParts
    rw [← List.map_take, proRefPartsCore_map_some]
  refine ⟨hpro, ?_, ?_⟩
  · intro imgs
    unfold flashRefParts
    have : (fun a : α => some (encodePart a)) = some ∘ encodePart := rfl
    rw [this, List.filterMap_eq_map]
  · intro imgs hlen
    rw [hpro imgs]
    simp [hlen]

theorem reference_images_truncated_witness :
    proRefParts (fun a => some ((fun x : Nat => x) a)) ((List.range 20).map some) =
      some (((List.range 20).take 14).map (fun x : Nat => x)) ∧
    (proRefParts (fun a => some ((fun x : Nat => x) a)) ((List.range 20).map some)).map
        List.length = some 14 :=
  ⟨(reference_images_truncated (fun x : Nat => x)).1 (List.range 20),
   (reference_images_truncated (fun x : Nat => x)).2.2 (List.range 20) (by decide)⟩

/-! ## C7: empty prompt short-circuits before any provider call -/

/-- C7: for every request with an empty prompt, the handler returns the
INVALID_REQUEST validation error with status 400 and the provider
generation function is never invoked (zero generator calls). -/
theorem empty_prompt_validation (r : ReqData) (forceMode : Option String)
    (gen : ReqData → GenResult) (hmsg : r.message = "") :
    (handleBananaImgRequest (ParseOutcome.ok r) forceMode gen).status = 400 ∧
    dictGet (handleBananaImgRequest (ParseOutcome.ok r) forceMode gen).resp "error_code" =
      some (PyVal.vStr "INVALID_REQUEST") ∧
    dictGet (handleBananaImgRequest (ParseOutcome.ok r) forceMode gen).resp "success" =
      some (PyVal.vBool false) ∧
    (handleBananaImgRequest (ParseOutcome.ok r) forceMode gen).genCalls = 0 := by
  have hmode : (match forceMode with
      | some m => { r with mode := m }
      | none => r).message = "" := by
    cases forceMode <;> simpa using hmsg
  unfold handleBananaImgRequest
  simp [reqIsValid, hmode, buildErrorResponse, dictGet]

theorem empty_prompt_validation_witness :
    (handleBananaImgRequest (ParseOutcome.ok ⟨"", "banana", none, none⟩) none
       (fun _ => GenResult.rNone)).status = 400 ∧
    dictGet (handleBananaImgRequest (ParseOutcome.ok ⟨"", "banana", none, none⟩) none
       (fun _ => GenResult.rNone)).resp "error_code" = some (PyVal.vStr "INVALID_REQUEST") ∧
    dictGet (handleBananaImgRequest (ParseOutcome.ok ⟨"", "banana", none, none⟩) none
       (fun _ => GenResult.rNone)).resp "success" = some (PyVal.vBool false) ∧
    (handleBananaImgRequest (ParseOutcome.ok ⟨"", "banana", none, none⟩) none
       (fun _ => GenResult.rNone)).genCalls = 0 :=
  empty_prompt_validation ⟨"", "banana", none, none⟩ none (fun _ => GenResult.rNone) rfl

/-! ## C8: successful validation requires a full decode -/

theorem validateAndEncode_pil_none (pil : PILOracle) (bytes : List Nat)
    (hnone : pil (vPreDecode bytes) = none) :
    validateAndEncode pil bytes = (false, none) := by
  unfold validateAndEncode
  simp [hnone]

/-- C8 counterexample: the banana 3 Pro pipeline still returns a success
dict for payload bytes whose full PIL decode fails (here the bare 8-byte
PNG signature, which is not a decodable image): decode failure is logged
but does not yield an InvalidImage failure on that path. -/
theorem full_decode_claim_false :
    proFinalize pilAlwaysFail pngSigBytes "image/png" =
      FlashOut.success (b64encode pngSigBytes) "png" ∧
    pilAlwaysFail pngSigBytes = none := by
  exact ⟨by decide, rfl⟩

/-- C8 as amended: in the studio pipeline the claim holds — validation
performs a full decode, `validate_and_encode` only accepts bytes whose
(possibly base64-pre-decoded) content PIL can fully decode, and a decode
failure makes `generate_with_gemini_image3` return the InvalidImage error,
never a success.  The banana 3 Pro tail, by contrast, still succeeds when
the PIL decode fails (see the counterexample). -/
theorem full_decode_amended :
    (∀ (pil : PILOracle) (bytes : List Nat),
       (validateAndEncode pil bytes).1 = true → pil (vPreDecode bytes) ≠ none) ∧
    (∀ (pil : PILOracle) (bytes : List Nat), pil (vPreDecode bytes) = none →
       studioValidateGate pil bytes = SValidateGate.invalidImage) := by
  constructor
  · intro pil bytes hval hnone
    rw [validateAndEncode_pil_none pil bytes hnone] at hval
    simp at hval
  · intro pil bytes hnone
    unfold studioValidateGate
    rw [validateAndEncode_pil_none pil bytes hnone]
    simp

theorem full_decode_amended_witness :
    studioValidateGate pilAlwaysFail (List.replicate 120 0) = SValidateGate.invalidImage :=
  (full_decode_amended).2 pilAlwaysFail (List.replicate 120 0) rfl

/-! ## C9: the retry decorator is an identity wrapper -/

/-- C9: for every function f and any max_retries and delay arguments, the
decorated function produced by `retry_on_network_error` is extensionally
the bare function: it invokes f exactly once with the same arguments and
returns exactly its result — it never retries and never sleeps. -/
theorem retry_decorator_identity {α β : Type} (maxRetries delay : Nat) (f : α → β) (args : α) :
    retryOnNetworkError maxRetries delay f args = f args := rfl

/-! ## C10: status 200 exactly characterizes success responses -/

theorem statusMapGet_ne_200 (code : String) : statusMapGet code ≠ 200 := by
  unfold statusMapGet
  split_ifs <;> simp

theorem handleSteps_spec (g : GenResult) :
    ((handleSteps g).2 = 200 →
       dictGet (handleSteps g).1 "success" = some (PyVal.vBool true) ∧
       ∃ bs, bs ≠ ([] : List Nat) ∧
         dictGet (handleSteps g).1 "image_bytes" = some (PyVal.vBytes bs)) ∧
    ((handleSteps g).2 ≠ 200 →
       dictGet (handleSteps g).1 "success" = some (PyVal.vBool false)) := by
  unfold handleSteps
  split
  · simp [buildErrorResponse, dictGet]
  split
  · constructor
    · intro h200
      exfalso
      unfold handleGeneratorError at h200
      exact statusMapGet_ne_200 _ (by simpa [buildErrorResponse] using h200)
    · intro _
      unfold handleGeneratorError
      simp [buildErrorResponse, dictGet]
  split
  · simp [buildErrorResponse, dictGet]
  · rename_i hnotsafety
    split
    · rename_i d
      split
      · simp [buildErrorResponse, dictGet]
      · rename_i ib hib
        split
        · simp [buildErrorResponse, dictGet]
        · rename_i htruthy
          split
          · rename_i bs
            constructor
            · intro _
              refine ⟨?_, ⟨bs, ?_, ?_⟩⟩
              · simp [buildSuccessResponse, dictGet]
              · revert htruthy
                simp [pyTruthy]
              · simp [buildSuccessResponse, dictGet, hib]
            · intro hne
              exact absurd rfl hne
          · simp [buildErrorResponse, dictGet]
    · simp [buildErrorResponse, dictGet]

/-- C10: whenever `handle_banana_img_request` returns status 200, the
response dict has success True and a present, non-empty, bytes-typed
image payload; conversely every parse, validation, generator-error,
safety-block or empty/ill-typed-payload path returns success False with a
non-200 status. -/
theorem handler_success_iff_200 (parsed : ParseOutcome) (forceMode : Option String)
    (gen : ReqData → GenResult) :
    ((handleBananaImgRequest parsed forceMode gen).status = 200 →
       dictGet (handleBananaImgRequest parsed forceMode gen).resp "success" =
         some (PyVal.vBool true) ∧
       ∃ bs, bs ≠ ([] : List Nat) ∧
         dictGet (handleBananaImgRequest parsed forceMode gen).resp "image_bytes" =
           some (PyVal.vBytes bs)) ∧
    ((handleBananaImgRequest parsed forceMode gen).status ≠ 200 →
       dictGet (handleBananaImgRequest parsed forceMode gen).resp "success" =
         some (PyVal.vBool false)) := by
  rcases parsed with _ | r0
  · constructor
    · intro h200
      exfalso
      revert h200
      simp [handleBananaImgRequest, buildErrorResponse]
    · intro _
      simp [handleBananaImgRequest, buildErrorResponse, dictGet]
  · unfold handleBananaImgRequest
    by_cases hmsg : (match forceMode with
        | some m => { r0 with mode := m }
        | none => r0).message = ""
    · simp only [reqIsValid, hmsg, if_true]
      constructor
      · intro h200
        exfalso
        revert h200
        simp [buildErrorResponse]
      · intro _
        simp [buildErrorResponse, dictGet]
    · simp only [reqIsValid, hmsg, if_false]
      exact handleSteps_spec _

theorem handler_success_iff_200_witness :
    dictGet (handleBananaImgRequest (ParseOutcome.ok ⟨"hi", "banana", none, none⟩) none
      (fun _ => GenResult.rDict [("image_bytes", PyVal.vBytes [1, 2, 3])])).resp "success" =
      some (PyVal.vBool true) ∧
    ∃ bs, bs ≠ ([] : List Nat) ∧
      dictGet (handleBananaImgRequest (ParseOutcome.ok ⟨"hi", "banana", none, none⟩) none
        (fun _ => GenResult.rDict [("image_bytes", PyVal.vBytes [1, 2, 3])])).resp "image_bytes" =
        some (PyVal.vBytes bs) :=
  (handler_success_iff_200 (ParseOutcome.ok ⟨"hi", "banana", none, none⟩) none
    (fun _ => GenResult.rDict [("image_bytes", PyVal.vBytes [1, 2, 3])])).1 (by decide)
